import Mathlib

/-!
Verification of `src/video_converter.py` (batch video transcoder).

Shallow embedding conventions:
* Python floats (durations, sizes in MB) are modelled as exact rationals `ℚ`.
* Python `int(...)` truncation toward zero is `pyInt`.
* A raised-and-uncaught Python exception is modelled with `Except.error`;
  a function that can raise `ZeroDivisionError` internally returns `Option`
  with `none` standing for the raise.
* External effects (ffprobe output, ffmpeg return codes, measured file
  sizes, filesystem existence checks) are supplied through an `Env` record;
  `process_video` is a pure function of that record and also reports the
  list of encoder invocations it performs.
* Python string methods `str.lower` / `str.isalnum` are modelled at ASCII
  granularity (`pyLower`, `Char.isAlphanum`), which is faithful for the
  ASCII file names the program manipulates.
-/

/-- Python `int()` applied to a rational: truncation toward zero. -/
def pyInt (q : ℚ) : ℤ := if 0 ≤ q then ⌊q⌋ else ⌈q⌉

/-- ASCII model of Python `str.lower` on one character (A–Z map to a–z). -/
def pyLower (c : Char) : Char :=
  if 65 ≤ c.toNat ∧ c.toNat ≤ 90 then Char.ofNat (c.toNat + 32) else c

/-- `formatted.replace(' ', '-')`, per character. -/
def spaceToHyphen (c : Char) : Char := if c = ' ' then '-' else c

/-- The predicate of the comprehension `c.isalnum() or c in '-_'`. -/
def keepChar (c : Char) : Bool := c.isAlphanum || c = '-' || c = '_'

/-- `format_filename` on the character list: lowercase, then replace spaces
with hyphens, then keep only alphanumerics, hyphen and underscore
(source lines 7–12). -/
def formatFilenameL (l : List Char) : List Char :=
  List.filter keepChar (List.map spaceToHyphen (List.map pyLower l))

/-- `format_filename(filename)` from the source. -/
def format_filename (s : String) : String := String.mk (formatFilenameL s.data)

/-- The final path component: characters after the last slash
(model of `pathlib.PurePath.name` for paths without a trailing slash). -/
def pathName (l : List Char) : List Char :=
  (List.takeWhile (fun c => !(c = '/' : Bool)) l.reverse).reverse

/-- Model of `pathlib.PurePath.stem` on the name: drop the last
dot-extension when the last dot is neither the first nor the last
character, else keep the name unchanged. -/
def pyStemL (l : List Char) : List Char :=
  match List.findIdx? (fun c => c = '.') l.reverse with
  | none => l
  | some j => if j = 0 ∨ j = l.length - 1 then l else List.take (l.length - 1 - j) l

/-- `Path(input_file).stem`. -/
def pathStem (s : String) : String := String.mk (pyStemL (pathName s.data))

/-- The normalized base name the pipeline derives for an asset:
`format_filename(input_path.stem)` (source line 56). -/
def normalizeAsset (s : String) : String := format_filename (pathStem s)

/-- `calculate_target_bitrate(duration_seconds)` (source lines 45–50).
`none` models the `ZeroDivisionError` Python raises when
`duration_seconds == 0`; otherwise the computed bitrate is returned. -/
def calculate_target_bitrate (duration_seconds : ℚ) : Option ℤ :=
  let base_bitrate : ℤ := 3000000
  let target_size_mb : ℚ := min 12 (duration_seconds * 0.2)
  let target_size_bits : ℚ := target_size_mb * 8 * 1024 * 1024
  if duration_seconds = 0 then none
  else some (min (pyInt (target_size_bits / duration_seconds)) base_bitrate)

/-- The dictionary `get_video_info` returns on success
(source lines 37–41). -/
structure VideoMetadata where
  width : ℤ
  height : ℤ
  duration : ℚ
deriving DecidableEq

/-- One entry of the parsed ffprobe `streams` array. A `none` field models
a key absent from the JSON object (then `dict.get` supplies the default). -/
structure StreamInfo where
  width : Option ℤ
  height : Option ℤ
  duration : Option ℚ
deriving DecidableEq

/-- What the ffprobe invocation plus `json.loads` yields, as seen by
`get_video_info`: `err` models any exception before the field reads
(`ffprobe` missing, non-zero exit of `subprocess.check_output`, or
`json.loads` failing on malformed output); `ok streams` models a parsed
JSON object, where `streams = none` means the `streams` key is absent. -/
inductive ProbeRaw where
  | err : ProbeRaw
  | ok (streams : Option (List StreamInfo)) : ProbeRaw

/-- `get_video_info` (source lines 22–43): the bare `except: return None`
catches every exception, so the function is total into `Option`; missing
numeric fields default to `0`; an empty `streams` array raises
`IndexError` at `[0]`, which the bare `except` also turns into `None`. -/
def get_video_info : ProbeRaw → Option VideoMetadata
  | ProbeRaw.err => none
  | ProbeRaw.ok streams =>
    let ss := streams.getD [{ width := none, height := none, duration := none }]
    match ss.head? with
    | none => none
    | some stream_info =>
      some { width := stream_info.width.getD 0,
             height := stream_info.height.getD 0,
             duration := stream_info.duration.getD 0 }

/-- Result of one `subprocess.run(..., capture_output=True)` call. -/
structure RunResult where
  returncode : ℤ
  stdout : String
  stderr : String
deriving DecidableEq

/-- The per-asset result dictionary of `process_video`: the success shape
of lines 181–188 or the failure shape of lines 193–197. -/
inductive TranscodeResult where
  | success (filename : String) (original_size mp4_size webm_size duration : ℚ)
  | failure (filename : String) (error : String)
deriving DecidableEq

/-- An ffmpeg encoder invocation recorded with its rate-control numbers. -/
inductive Call where
  | mp4 (maxrate : ℤ)
  | webm (bv minrate maxrate : ℤ)
deriving DecidableEq

/-- A Python exception escaping `process_video` uncaught. -/
inductive PyExn where
  | zeroDivisionError : PyExn
deriving DecidableEq

/-- Everything the outside world feeds one `process_video` run: the probe
result, the size of the input file, the outcome of each possible
`subprocess.run` encoder call, the `mp4_output.exists()` check, and the
file sizes `get_video_size_mb` measures after each encode. -/
structure Env where
  probe : Option VideoMetadata
  input_size_mb : ℚ
  mp4_run : RunResult
  mp4_exists : Bool
  webm_run1 : RunResult
  mp4_size_mb : ℚ
  webm_size1_mb : ℚ
  webm_run2 : RunResult
  webm_size2_mb : ℚ
deriving DecidableEq

/-- A single quote character, used by the Python `repr` of a string. -/
def sglQuote : String := String.singleton (Char.ofNat 39)

/-- Python `repr` of a string containing no quotes or escapes. -/
def pyStrRepr (s : String) : String := sglQuote ++ s ++ sglQuote

/-- Python `str` of a list of strings: brackets around comma-separated
`repr`s of the elements. -/
def pyListStr (xs : List String) : String :=
  "[" ++ String.intercalate ", " (xs.map pyStrRepr) ++ "]"

/-- `str()` of a `subprocess.CalledProcessError`: CPython formats only the
command and the exit status (negative codes report the signal instead);
the captured `stderr` is NOT part of this message. -/
def calledProcessErrorStr (returncode : ℤ) (cmd : List String) : String :=
  if returncode < 0 then
    "Command " ++ pyStrRepr (pyListStr cmd) ++ " died with unknown signal " ++
      toString (-returncode) ++ "."
  else
    "Command " ++ pyStrRepr (pyListStr cmd) ++ " returned non-zero exit status " ++
      toString returncode ++ "."

/-- The fixed scale/crop filter of source lines 84–87. -/
def scale_filter : String :=
  "scale=1080:1920:force_original_aspect_ratio=increase,crop=1080:1920"

/-- The MP4 ffmpeg command list (source lines 91–111). -/
def mp4Cmd (input_file : String) (ffmpeg_threads : ℕ) (target_bitrate : ℤ)
    (mp4_output : String) : List String :=
  ["ffmpeg", "-y",
   "-i", input_file,
   "-threads", toString ffmpeg_threads,
   "-vf", scale_filter ++ ",format=yuv420p",
   "-c:v", "libx264",
   "-crf", "20",
   "-preset", "medium",
   "-profile:v", "main",
   "-level", "4.0",
   "-maxrate", toString target_bitrate,
   "-bufsize", toString (target_bitrate * 2),
   "-movflags", "+faststart",
   "-color_primaries", "bt709",
   "-color_trc", "bt709",
   "-colorspace", "bt709",
   "-c:a", "aac",
   "-b:a", "128k",
   "-ar", "48000",
   mp4_output]

/-- The WebM ffmpeg command list, shared by the first pass
(source lines 120–138) and the downgrade retry (lines 157–175); the two
passes differ only in the three rate numbers. -/
def webmCmd (mp4_output : String) (ffmpeg_threads : ℕ) (bv minrate maxrate : ℤ)
    (webm_output : String) : List String :=
  ["ffmpeg", "-y",
   "-i", mp4_output,
   "-threads", toString ffmpeg_threads,
   "-c:v", "libvpx-vp9",
   "-b:v", toString bv,
   "-minrate", toString minrate,
   "-maxrate", toString maxrate,
   "-tile-columns", "2",
   "-frame-parallel", "1",
   "-speed", "1",
   "-auto-alt-ref", "1",
   "-lag-in-frames", "25",
   "-g", "240",
   "-pix_fmt", "yuv420p",
   "-c:a", "libopus",
   "-b:a", "96k",
   webm_output]

/-- `process_video(args)` (source lines 52–197), as a pure function of the
environment. The first component records every encoder invocation in
order; the second is the returned value: `Except.error` models an
exception escaping the function (the unguarded `ZeroDivisionError` of
`calculate_target_bitrate`, called on line 78 outside the `try` block),
`Except.ok none` models the bare `return` on probe failure (line 72) and
the fall-through `return None` when the MP4 file is missing after the
encode, and `Except.ok (some r)` is a returned result dictionary. Inside
the `try`, a non-zero encoder exit raises `CalledProcessError`, which the
`except` clause of line 190 converts into the failure dictionary whose
`error` entry is `str(e)`. -/
def process_video (cpu_count : ℕ) (args : String × String) (env : Env) :
    List Call × Except PyExn (Option TranscodeResult) :=
  let input_file := args.1
  let output_dir := args.2
  let filename := format_filename (pathStem input_file)
  let mp4_output := output_dir ++ "/mp4/" ++ filename ++ ".mp4"
  let webm_output := output_dir ++ "/webm/" ++ filename ++ ".webm"
  match env.probe with
  | none => ([], Except.ok none)
  | some video_info =>
    let file_size_mb := env.input_size_mb
    let duration := video_info.duration
    match calculate_target_bitrate duration with
    | none => ([], Except.error PyExn.zeroDivisionError)
    | some target_bitrate =>
      let ffmpeg_threads := max 1 (cpu_count / 2)
      let mp4_cmd := mp4Cmd input_file ffmpeg_threads target_bitrate mp4_output
      if env.mp4_run.returncode ≠ 0 then
        ([Call.mp4 target_bitrate],
         Except.ok (some (TranscodeResult.failure filename
           (calledProcessErrorStr env.mp4_run.returncode mp4_cmd))))
      else if env.mp4_exists then
        let b1 := pyInt ((target_bitrate : ℚ) * 0.9)
        let m1 := pyInt ((target_bitrate : ℚ) * 0.6)
        let webm_cmd := webmCmd mp4_output ffmpeg_threads b1 m1 target_bitrate webm_output
        if env.webm_run1.returncode ≠ 0 then
          ([Call.mp4 target_bitrate, Call.webm b1 m1 target_bitrate],
           Except.ok (some (TranscodeResult.failure filename
             (calledProcessErrorStr env.webm_run1.returncode webm_cmd))))
        else
          let mp4_size := env.mp4_size_mb
          let webm_size := env.webm_size1_mb
          if webm_size > mp4_size then
            let b2 := pyInt ((target_bitrate : ℚ) * 0.7)
            let m2 := pyInt ((target_bitrate : ℚ) * 0.4)
            let x2 := pyInt ((target_bitrate : ℚ) * 0.8)
            let webm_cmd2 := webmCmd mp4_output ffmpeg_threads b2 m2 x2 webm_output
            if env.webm_run2.returncode ≠ 0 then
              ([Call.mp4 target_bitrate, Call.webm b1 m1 target_bitrate, Call.webm b2 m2 x2],
               Except.ok (some (TranscodeResult.failure filename
                 (calledProcessErrorStr env.webm_run2.returncode webm_cmd2))))
            else
              ([Call.mp4 target_bitrate, Call.webm b1 m1 target_bitrate, Call.webm b2 m2 x2],
               Except.ok (some (TranscodeResult.success filename file_size_mb
                 mp4_size env.webm_size2_mb duration)))
          else
            ([Call.mp4 target_bitrate, Call.webm b1 m1 target_bitrate],
             Except.ok (some (TranscodeResult.success filename file_size_mb
               mp4_size webm_size duration)))
      else
        ([Call.mp4 target_bitrate], Except.ok none)

/-- The dispatch/collect core of `batch_process_videos`
(source lines 240–242): `list(executor.map(process_video, process_args))`
evaluates `process_video` once per supported file, in submission order;
if a worker raised, iterating the map result re-raises that exception and
the whole batch aborts before `results` is built. -/
def batch_process_videos (cpu_count : ℕ) (output_dir : String) :
    List (String × Env) → Except PyExn (List (Option TranscodeResult))
  | [] => Except.ok []
  | (f, env) :: rest =>
    match (process_video cpu_count (f, output_dir) env).2 with
    | Except.error e => Except.error e
    | Except.ok r =>
      match batch_process_videos cpu_count output_dir rest with
      | Except.error e => Except.error e
      | Except.ok rs => Except.ok (r :: rs)

/-- `len(successful)` of source line 245: entries that are truthy
(not `None`) and have `success == True`. -/
def successCount (results : List (Option TranscodeResult)) : ℕ :=
  (results.filter (fun r => match r with
    | some (TranscodeResult.success _ _ _ _ _) => true
    | _ => false)).length

/-- `len(failed)` of source line 246: entries that are truthy (not `None`)
and do not have `success == True`. -/
def failureCount (results : List (Option TranscodeResult)) : ℕ :=
  (results.filter (fun r => match r with
    | some (TranscodeResult.failure _ _) => true
    | _ => false)).length

/-- The WebM encoder invocations among the recorded calls. -/
def webmCalls (calls : List Call) : List Call :=
  calls.filter (fun c => match c with
    | Call.webm _ _ _ => true
    | _ => false)

/-- Decidable sufficient condition for `process_video` not to raise: the
probe either failed or reported a non-zero duration. -/
def probeDurationNonzero (env : Env) : Bool :=
  match env.probe with
  | none => true
  | some vi => vi.duration ≠ 0

/-- Whether `sub` occurs as a contiguous run inside `l`. -/
def listStartsWith : List Char → List Char → Bool
  | _, [] => true
  | [], _ :: _ => false
  | c :: cs, d :: ds => c = d && listStartsWith cs ds

/-- Substring occurrence test on character lists. -/
def listHasSub : List Char → List Char → Bool
  | [], sub => listStartsWith [] sub
  | c :: tl, sub => listStartsWith (c :: tl) sub || listHasSub tl sub

/-- Whether the string `sub` occurs inside `s` (Python `sub in s`). -/
def strContains (s sub : String) : Bool := listHasSub s.data sub.data

/-- An environment in which every external step succeeds: probe reports
1080×1920 at 10 s, both encoders exit 0, the MP4 appears on disk, and the
first WebM (6 MB) is already smaller than the MP4 (8 MB). -/
def envGood : Env :=
  { probe := some { width := 1080, height := 1920, duration := 10 },
    input_size_mb := 50,
    mp4_run := { returncode := 0, stdout := "", stderr := "" },
    mp4_exists := true,
    webm_run1 := { returncode := 0, stdout := "", stderr := "" },
    mp4_size_mb := 8,
    webm_size1_mb := 6,
    webm_run2 := { returncode := 0, stdout := "", stderr := "" },
    webm_size2_mb := 5 }

/-- Same as `envGood` but the probe fails (`get_video_info` returns
`None`). -/
def envProbeNull : Env := { envGood with probe := none }

/-- Same as `envGood` but the probe reports a zero duration (e.g. the
ffprobe JSON lacked the `duration` field and `get_video_info` defaulted
it to 0). -/
def envZeroDur : Env :=
  { envGood with probe := some { width := 1080, height := 1920, duration := 0 } }

/-- Same as `envGood` but the MP4 encode exits 1 with stderr "boom". -/
def envMp4Fail : Env :=
  { envGood with mp4_run := { returncode := 1, stdout := "", stderr := "boom" } }

/-- Same as `envGood` but the first WebM (9 MB) is larger than the MP4
(8 MB), so the downgrade retry runs. -/
def envWebmBig : Env := { envGood with webm_size1_mb := 9 }

/-! ## Helper lemmas about filename normalization -/

theorem char_toNat_ofNat_valid (n : ℕ) (h : n.isValidChar) : (Char.ofNat n).toNat = n := by
  unfold Char.ofNat
  rw [dif_pos h]
  rfl

theorem pyLower_idem (c : Char) : pyLower (pyLower c) = pyLower c := by
  unfold pyLower
  by_cases h : 65 ≤ c.toNat ∧ c.toNat ≤ 90
  · rw [if_pos h]
    have hv : (c.toNat + 32).isValidChar := Or.inl (by omega)
    rw [char_toNat_ofNat_valid _ hv, if_neg (by omega)]
  · rw [if_neg h, if_neg h]

theorem s2h_pyLower_fix (c : Char) :
    pyLower (spaceToHyphen (pyLower c)) = spaceToHyphen (pyLower c) := by
  unfold spaceToHyphen
  by_cases h : pyLower c = ' '
  · rw [if_pos h]; decide
  · rw [if_neg h]; exact pyLower_idem c

theorem keepChar_ne_space {c : Char} (h : keepChar c = true) : ¬ c = ' ' := by
  intro he
  rw [he] at h
  exact absurd h (by decide)

theorem mem_formatFilenameL {c : Char} {l : List Char} (h : c ∈ formatFilenameL l) :
    keepChar c = true ∧ ∃ a, c = spaceToHyphen (pyLower a) := by
  unfold formatFilenameL at h
  rw [List.mem_filter] at h
  obtain ⟨hm, hk⟩ := h
  rw [List.map_map, List.mem_map] at hm
  obtain ⟨a, _, ha⟩ := hm
  refine ⟨hk, a, ?_⟩
  simp only [Function.comp_apply] at ha
  exact ha.symm

theorem s2h_fix {c : Char} (h : keepChar c = true) : spaceToHyphen c = c := by
  unfold spaceToHyphen
  rw [if_neg (keepChar_ne_space h)]

theorem formatFilenameL_fix {c : Char} {l : List Char} (h : c ∈ formatFilenameL l) :
    pyLower c = c ∧ spaceToHyphen c = c ∧ keepChar c = true := by
  obtain ⟨hk, a, rfl⟩ := mem_formatFilenameL h
  exact ⟨s2h_pyLower_fix a, s2h_fix hk, hk⟩

theorem formatFilenameL_idem (l : List Char) :
    formatFilenameL (formatFilenameL l) = formatFilenameL l := by
  have h1 : List.map pyLower (formatFilenameL l) = formatFilenameL l :=
    (List.map_congr_left fun a ha => (formatFilenameL_fix ha).1).trans (List.map_id _)
  have h2 : List.map spaceToHyphen (formatFilenameL l) = formatFilenameL l :=
    (List.map_congr_left fun a ha => (formatFilenameL_fix ha).2.1).trans (List.map_id _)
  show List.filter keepChar
      (List.map spaceToHyphen (List.map pyLower (formatFilenameL l))) = formatFilenameL l
  rw [h1, h2, List.filter_eq_self.mpr fun a ha => (formatFilenameL_fix ha).2.2]

theorem format_filename_idem (s : String) :
    format_filename (format_filename s) = format_filename s :=
  congrArg String.mk (formatFilenameL_idem s.data)

theorem pathName_eq_self {l : List Char} (h : ∀ c ∈ l, ¬ c = '/') : pathName l = l := by
  unfold pathName
  rw [List.takeWhile_eq_self_iff.mpr ?_, List.reverse_reverse]
  intro c hc
  rw [List.mem_reverse] at hc
  simpa using h c hc

theorem pyStemL_eq_self {l : List Char} (h : ∀ c ∈ l, ¬ c = '.') : pyStemL l = l := by
  unfold pyStemL
  have hn : List.findIdx? (fun c => decide (c = '.')) l.reverse = none := by
    rw [List.findIdx?_eq_none_iff]
    intro x hx
    rw [List.mem_reverse] at hx
    simpa using h x hx
  rw [hn]

theorem pathStem_format_filename (s : String) :
    pathStem (format_filename s) = format_filename s := by
  have hk : ∀ c ∈ (format_filename s).data, keepChar c = true := by
    intro c hc
    exact (formatFilenameL_fix hc).2.2
  have hslash : ∀ c ∈ (format_filename s).data, ¬ c = '/' := by
    intro c hc he
    rw [he] at hc
    exact absurd (hk _ hc) (by decide)
  have hdot : ∀ c ∈ (format_filename s).data, ¬ c = '.' := by
    intro c hc he
    rw [he] at hc
    exact absurd (hk _ hc) (by decide)
  show String.mk (pyStemL (pathName (format_filename s).data)) = format_filename s
  rw [pathName_eq_self hslash, pyStemL_eq_self hdot]

theorem pyInt_eq_floor {q : ℚ} (h : 0 ≤ q) : pyInt q = ⌊q⌋ := if_pos h

/-- For a positive duration the bitrate formula collapses to
`min ⌊8388608 * min (12/d) (1/5)⌋ 3000000`. -/
theorem calc_formula (d : ℚ) (hd : 0 < d) :
    calculate_target_bitrate d =
      some (min ⌊(8388608 : ℚ) * min (12 / d) (1 / 5)⌋ 3000000) := by
  have h2 : (0.2 : ℚ) = 1 / 5 := by norm_num
  have hq : min 12 (d * 0.2) * 8 * 1024 * 1024 / d = 8388608 * min (12 / d) (1 / 5) := by
    rw [h2]
    rcases le_total (d * (1 / 5)) 12 with h | h
    · rw [min_eq_right h, min_eq_right (by rw [le_div_iff hd]; linarith)]
      field_simp
      ring
    · rw [min_eq_left h, min_eq_left (by rw [div_le_div_iff hd (by norm_num)]; linarith)]
      field_simp
      norm_num
  show (if d = 0 then none
    else some (min (pyInt (min 12 (d * 0.2) * 8 * 1024 * 1024 / d)) 3000000)) = _
  rw [if_neg hd.ne', hq, pyInt_eq_floor (by positivity)]

/-- C7: filename normalization as the pipeline applies it to an asset
(`format_filename(Path(x).stem)`, source line 56) is idempotent, and on
the input "My Clip 01.MOV" it yields "my-clip-01". -/
theorem C7_normalization_idempotent :
    (∀ x : String, normalizeAsset (normalizeAsset x) = normalizeAsset x) ∧
    normalizeAsset "My Clip 01.MOV" = "my-clip-01" := by
  constructor
  · intro x
    show format_filename (pathStem (format_filename (pathStem x))) = _
    rw [pathStem_format_filename]
    exact format_filename_idem _
  · decide

/-- C7 witness: the idempotence instance at the concrete input. -/
theorem C7_normalization_witness :
    normalizeAsset (normalizeAsset "My Clip 01.MOV") = normalizeAsset "My Clip 01.MOV" :=
  C7_normalization_idempotent.1 "My Clip 01.MOV"

/-- C9: the probe adapter is total (the bare `except` catches every
failure and yields `None`), and when the output parses, each missing
numeric field defaults to 0 while a `VideoMetadata` value is still
returned. An empty `streams` array is an `IndexError` inside the `try`,
hence also `None`. -/
theorem C9_probe_degrades_to_null (s : StreamInfo) (rest : List StreamInfo) :
    get_video_info ProbeRaw.err = none ∧
    get_video_info (ProbeRaw.ok (some [])) = none ∧
    get_video_info (ProbeRaw.ok none) =
      some { width := 0, height := 0, duration := 0 } ∧
    get_video_info (ProbeRaw.ok (some (s :: rest))) =
      some { width := s.width.getD 0, height := s.height.getD 0,
             duration := s.duration.getD 0 } :=
  ⟨rfl, rfl, rfl, rfl⟩

/-- C9 witness: a stream entry carrying only a width still produces
metadata, with height and duration defaulted to 0. -/
theorem C9_probe_witness :
    get_video_info ProbeRaw.err = none ∧
    get_video_info (ProbeRaw.ok (some [])) = none ∧
    get_video_info (ProbeRaw.ok none) =
      some { width := 0, height := 0, duration := 0 } ∧
    get_video_info (ProbeRaw.ok
        (some [{ width := some 1080, height := none, duration := none }])) =
      some { width := 1080, height := 0, duration := 0 } :=
  C9_probe_degrades_to_null { width := some 1080, height := none, duration := none } []

/-- C4 counterexample: the claimed bounds fail as stated over all d > 0;
at d = 200000000 the computed bitrate is 0, violating the strict lower
bound. -/
theorem C4_counterexample :
    ¬ (∀ d : ℚ, 0 < d → ∀ b : ℤ, calculate_target_bitrate d = some b →
        0 < b ∧ b ≤ 3000000) := by
  intro hcl
  have h0 : calculate_target_bitrate 200000000 = some 0 := by
    rw [calc_formula 200000000 (by norm_num)]
    norm_num [min_def]
  have := (hcl 200000000 (by norm_num) 0 h0).1
  exact absurd this (by norm_num)

/-- C4 amended: for durations 0 < d ≤ 100663296 (= 12·8·1024·1024) the
computed bitrate b satisfies 0 < b ≤ 3000000; beyond that bound the floor
reaches 0. -/
theorem C4_amended (d : ℚ) (h1 : 0 < d) (h2 : d ≤ 100663296) :
    ∃ b : ℤ, calculate_target_bitrate d = some b ∧ 0 < b ∧ b ≤ 3000000 := by
  rw [calc_formula d h1]
  refine ⟨_, rfl, ?_, min_le_right _ _⟩
  have hfl : (1 : ℤ) ≤ ⌊(8388608 : ℚ) * min (12 / d) (1 / 5)⌋ := by
    rw [Int.le_floor]
    have hq : (1 : ℚ) / 8388608 ≤ min (12 / d) (1 / 5) := by
      apply le_min
      · rw [div_le_div_iff (by norm_num) h1]
        linarith
      · norm_num
    calc ((1 : ℤ) : ℚ) = 8388608 * (1 / 8388608) := by norm_num
    _ ≤ 8388608 * min (12 / d) (1 / 5) := by
        exact mul_le_mul_of_nonneg_left hq (by norm_num)
  exact lt_min (by omega) (by norm_num)

/-- C4 amended witness at d = 100. -/
theorem C4_amended_witness :
    ∃ b : ℤ, calculate_target_bitrate 100 = some b ∧ 0 < b ∧ b ≤ 3000000 :=
  C4_amended 100 (by norm_num) (by norm_num)

/-- C8: when `d * 0.2 ≥ 12`, the 12 MB size cap is engaged and the
computed bitrate is exactly `min(floor(12*8*1024*1024 / d), 3000000)`. -/
theorem C8_size_cap_engaged (d : ℚ) (h : 12 ≤ d * 0.2) :
    calculate_target_bitrate d =
      some (min ⌊(12 * 8 * 1024 * 1024 : ℚ) / d⌋ 3000000) := by
  have h5 : (0.2 : ℚ) = 1 / 5 := by norm_num
  have hd : 0 < d := by rw [h5] at h; linarith
  show (if d = 0 then none
    else some (min (pyInt (min 12 (d * 0.2) * 8 * 1024 * 1024 / d)) 3000000)) = _
  rw [if_neg hd.ne', min_eq_left h, pyInt_eq_floor (by positivity)]

/-- C8 witness at d = 120 seconds. -/
theorem C8_size_cap_witness :
    calculate_target_bitrate 120 =
      some (min ⌊(12 * 8 * 1024 * 1024 : ℚ) / 120⌋ 3000000) :=
  C8_size_cap_engaged 120 (by norm_num)

/-- C10: below the 12 MB cap (0 < d ≤ 60) the computed bitrate is the
constant 1677721 bps, and over all positive durations the planner is
monotonically non-increasing. -/
theorem C10_bitrate_constant_and_antitone :
    (∀ d : ℚ, 0 < d → d ≤ 60 → calculate_target_bitrate d = some 1677721) ∧
    (∀ d1 d2 : ℚ, 0 < d1 → d1 ≤ d2 → ∀ b1 b2 : ℤ,
      calculate_target_bitrate d1 = some b1 →
      calculate_target_bitrate d2 = some b2 → b2 ≤ b1) := by
  constructor
  · intro d hd h60
    have hmin : min ((12 : ℚ) / d) (1 / 5) = 1 / 5 :=
      min_eq_right (by rw [le_div_iff hd]; linarith)
    rw [calc_formula d hd, hmin]
    have hfl : (⌊(8388608 : ℚ) * (1 / 5)⌋ : ℤ) = 1677721 := by norm_num
    rw [hfl, min_eq_left (by norm_num)]
  · intro d1 d2 hd1 hle b1 b2 hb1 hb2
    have hd2 : 0 < d2 := lt_of_lt_of_le hd1 hle
    rw [calc_formula d1 hd1] at hb1
    rw [calc_formula d2 hd2] at hb2
    have e1 := Option.some.inj hb1
    have e2 := Option.some.inj hb2
    rw [← e1, ← e2]
    refine min_le_min (Int.floor_le_floor ?_) le_rfl
    refine mul_le_mul_of_nonneg_left (min_le_min ?_ le_rfl) (by norm_num)
    exact div_le_div_of_nonneg_left (by norm_num) hd1 hle

/-- C10 witness: the constant value at d = 30. -/
theorem C10_bitrate_witness : calculate_target_bitrate 30 = some 1677721 :=
  C10_bitrate_constant_and_antitone.1 30 (by norm_num) (by norm_num)

/-! ## Helper lemmas about the pipeline -/

theorem calc_ten : calculate_target_bitrate 10 = some 1677721 := by
  rw [calc_formula 10 (by norm_num)]
  norm_num [min_def]

/-- If the probe failed or reported a non-zero duration, `process_video`
returns rather than raising. -/
theorem process_video_ok (cpu_count : ℕ) (args : String × String) (env : Env)
    (h : probeDurationNonzero env = true) :
    ∃ r, (process_video cpu_count args env).2 = Except.ok r := by
  rcases hp : env.probe with _ | vi
  · exact ⟨none, by simp [process_video, hp]⟩
  · unfold probeDurationNonzero at h
    rw [hp] at h
    have hd : vi.duration ≠ 0 := by simpa using h
    have ht : calculate_target_bitrate vi.duration =
        some (min (pyInt (min 12 (vi.duration * 0.2) * 8 * 1024 * 1024 / vi.duration))
          3000000) := by
      show (if vi.duration = 0 then none else _) = _
      rw [if_neg hd]
    simp only [process_video, hp, ht]
    split_ifs <;> exact ⟨_, rfl⟩

/-- C2 (code bug evidence): a probed duration of 0 makes
`calculate_target_bitrate` raise `ZeroDivisionError` (modelled `none`);
the call site (line 78) is outside the `try` block, so the exception
escapes `process_video` and aborts the whole batch — there is no guard
and no zero-duration Failure result. -/
theorem C2_zero_duration_crash :
    calculate_target_bitrate 0 = none ∧
    (process_video 4 ("a.mp4", "out") envZeroDur).2 =
      Except.error PyExn.zeroDivisionError ∧
    batch_process_videos 4 "out" [("a.mp4", envZeroDur), ("b.mp4", envGood)] =
      Except.error PyExn.zeroDivisionError := by
  have hc : calculate_target_bitrate 0 = none := by
    simp [calculate_target_bitrate]
  have hpv : (process_video 4 ("a.mp4", "out") envZeroDur).2 =
      Except.error PyExn.zeroDivisionError := by
    simp [process_video, envZeroDur, envGood, hc]
  refine ⟨hc, hpv, ?_⟩
  simp [batch_process_videos, hpv]

/-- C3 counterexample: the exception raised for a zero probed duration is
not caught by the per-asset pipeline (its `except` clause only handles
`subprocess.CalledProcessError`, and the raise happens before the `try`),
so it propagates out of `process_video` and aborts the whole batch. -/
theorem C3_counterexample :
    (process_video 4 ("c.mp4", "out") envZeroDur).2 =
      Except.error PyExn.zeroDivisionError ∧
    batch_process_videos 4 "out" [("c.mp4", envZeroDur)] =
      Except.error PyExn.zeroDivisionError := by
  have hc : calculate_target_bitrate 0 = none := by
    simp [calculate_target_bitrate]
  have hpv : (process_video 4 ("c.mp4", "out") envZeroDur).2 =
      Except.error PyExn.zeroDivisionError := by
    simp [process_video, envZeroDur, envGood, hc]
  exact ⟨hpv, by simp [batch_process_videos, hpv]⟩

/-- C3 amended: exceptions arising as `CalledProcessError` in the encode
stages are converted into Failure results, and whenever the probed
duration is non-zero (or the probe failed) `process_video` returns a
value rather than raising; but an exception raised outside the `try`
block — the zero-duration `ZeroDivisionError` — does propagate and abort
the batch (see the counterexample). -/
theorem C3_amended (cpu_count : ℕ) (args : String × String) (env : Env)
    (h : probeDurationNonzero env = true) :
    (∃ r, (process_video cpu_count args env).2 = Except.ok r) ∧
    ∀ e, (process_video cpu_count args env).2 ≠ Except.error e := by
  obtain ⟨r, hr⟩ := process_video_ok cpu_count args env h
  refine ⟨⟨r, hr⟩, fun e he => ?_⟩
  rw [hr] at he
  exact Except.noConfusion he

/-- C3 amended witness: on a fully successful environment the pipeline
returns a value and raises nothing. -/
theorem C3_amended_witness :
    (∃ r, (process_video 4 ("a.mp4", "out") envGood).2 = Except.ok r) ∧
    ∀ e, (process_video 4 ("a.mp4", "out") envGood).2 ≠ Except.error e :=
  C3_amended 4 ("a.mp4", "out") envGood (by decide)

/-- C1 counterexample: with two supported files, one of which has a
failing probe, the batch returns two entries but the probe-failed asset
contributes `None` — not a Failure record — so the batch has 1 Success
and 0 Failure results instead of the claimed 1 Success + 1 Failure; the
failed asset never reaches an encode stage (no recorded encoder calls). -/
theorem C1_counterexample :
    batch_process_videos 4 "out" [("a.mp4", envProbeNull), ("b.mp4", envGood)] =
      Except.ok [none, some (TranscodeResult.success "b" 50 8 6 10)] ∧
    failureCount [none, some (TranscodeResult.success "b" 50 8 6 10)] = 0 ∧
    successCount [none, some (TranscodeResult.success "b" 50 8 6 10)] = 1 ∧
    (process_video 4 ("a.mp4", "out") envProbeNull).1 = [] := by
  have hnull : process_video 4 ("a.mp4", "out") envProbeNull = ([], Except.ok none) := by
    simp [process_video, envProbeNull, envGood]
  have hb : format_filename (pathStem "b.mp4") = "b" := by decide
  have hgood : (process_video 4 ("b.mp4", "out") envGood).2 =
      Except.ok (some (TranscodeResult.success "b" 50 8 6 10)) := by
    simp only [process_video, envGood, calc_ten, hb]
    norm_num
  refine ⟨?_, by decide, by decide, congrArg Prod.fst hnull⟩
  have hnull2 : (process_video 4 ("a.mp4", "out") envProbeNull).2 = Except.ok none :=
    congrArg Prod.snd hnull
  simp [batch_process_videos, hnull2, hgood]

/-- C1 amended: each dispatched asset contributes exactly one entry to
the collected batch list (the list has one entry per supported file), but
that entry is not always a TranscodeResult: an asset whose probe returns
null contributes `None` (the bare `return` of line 72), with no encoder
invocation for that asset. The per-asset length invariant holds provided
no asset has a zero probed duration (which would abort the batch, see
C2). -/
theorem C1_amended (cpu_count : ℕ) (output_dir : String) (jobs : List (String × Env))
    (h : jobs.all (fun j => probeDurationNonzero j.2) = true) :
    (∃ rs, batch_process_videos cpu_count output_dir jobs = Except.ok rs ∧
      rs.length = jobs.length) ∧
    ∀ f env, (f, env) ∈ jobs → env.probe = none →
      process_video cpu_count (f, output_dir) env = ([], Except.ok none) := by
  constructor
  · induction jobs with
    | nil => exact ⟨[], rfl, rfl⟩
    | cons j rest ih =>
      rw [List.all_cons, Bool.and_eq_true] at h
      obtain ⟨r, hr⟩ := process_video_ok cpu_count (j.1, output_dir) j.2 h.1
      obtain ⟨rs, hrs, hlen⟩ := ih h.2
      refine ⟨r :: rs, ?_, by simp [hlen]⟩
      obtain ⟨f, env⟩ := j
      show (match (process_video cpu_count (f, output_dir) env).2 with
        | Except.error e => Except.error e
        | Except.ok r =>
          match batch_process_videos cpu_count output_dir rest with
          | Except.error e => Except.error e
          | Except.ok rs => Except.ok (r :: rs)) = Except.ok (r :: rs)
      rw [hr, hrs]
  · intro f env _ hp
    simp [process_video, hp]

/-- C1 amended witness: the two-job batch of the counterexample yields a
two-entry list, and the probe-null job contributes `None` with no
encoder calls. -/
theorem C1_amended_witness :
    (∃ rs, batch_process_videos 4 "out" [("a.mp4", envProbeNull), ("b.mp4", envGood)] =
      Except.ok rs ∧ rs.length = [("a.mp4", envProbeNull), ("b.mp4", envGood)].length) ∧
    ∀ f env, (f, env) ∈ [("a.mp4", envProbeNull), ("b.mp4", envGood)] → env.probe = none →
      process_video 4 (f, "out") env = ([], Except.ok none) :=
  C1_amended 4 "out" [("a.mp4", envProbeNull), ("b.mp4", envGood)] (by decide)

/-- C5: once the MP4 pass succeeds, the MP4 file exists, and the first
WebM pass exits 0, the pipeline invokes the WebM encoder exactly twice
when the first WebM output is larger than the MP4 (the initial pass at
0.9/0.6/1.0 of the target bitrate plus one downgrade retry at
0.7/0.4/0.8, overwriting the prior output) and never a third time —
regardless of the retry outcome or the retry exit code — and exactly
once otherwise. -/
theorem C5_webm_retry_once (cpu_count : ℕ) (input_file output_dir : String) (env : Env)
    (vi : VideoMetadata) (t : ℤ)
    (hp : env.probe = some vi)
    (ht : calculate_target_bitrate vi.duration = some t)
    (h1 : env.mp4_run.returncode = 0)
    (hex : env.mp4_exists = true)
    (h2 : env.webm_run1.returncode = 0) :
    webmCalls (process_video cpu_count (input_file, output_dir) env).1 =
      (if env.webm_size1_mb > env.mp4_size_mb then
        [Call.webm (pyInt ((t : ℚ) * 0.9)) (pyInt ((t : ℚ) * 0.6)) t,
         Call.webm (pyInt ((t : ℚ) * 0.7)) (pyInt ((t : ℚ) * 0.4)) (pyInt ((t : ℚ) * 0.8))]
      else
        [Call.webm (pyInt ((t : ℚ) * 0.9)) (pyInt ((t : ℚ) * 0.6)) t]) := by
  simp only [process_video, hp, ht, h1, hex]
  by_cases hc : env.webm_size1_mb > env.mp4_size_mb
  · rw [if_pos hc, if_pos hc]
    simp [h2, webmCalls]
    split <;> simp
  · rw [if_neg hc, if_neg hc]
    simp [h2, webmCalls]

/-- C5 witness: in the environment whose first WebM (9 MB) exceeds the
MP4 (8 MB), the recorded WebM invocations are exactly the initial pass
and the single downgrade retry. -/
theorem C5_webm_retry_witness :
    webmCalls (process_video 4 ("a.mp4", "out") envWebmBig).1 =
      (if envWebmBig.webm_size1_mb > envWebmBig.mp4_size_mb then
        [Call.webm (pyInt ((1677721 : ℚ) * 0.9)) (pyInt ((1677721 : ℚ) * 0.6)) 1677721,
         Call.webm (pyInt ((1677721 : ℚ) * 0.7)) (pyInt ((1677721 : ℚ) * 0.4))
           (pyInt ((1677721 : ℚ) * 0.8))]
      else
        [Call.webm (pyInt ((1677721 : ℚ) * 0.9)) (pyInt ((1677721 : ℚ) * 0.6)) 1677721]) :=
  C5_webm_retry_once 4 "a.mp4" "out" envWebmBig
    { width := 1080, height := 1920, duration := 10 } 1677721 rfl calc_ten rfl rfl rfl

/-- C6 amended: a non-zero MP4 encoder exit yields a Failure result whose
message is the `str()` of the `CalledProcessError` — the ffmpeg command
list and the exit status, WITHOUT the captured stderr text (that is only
printed to the console) — and the WebM encoder is never invoked for that
asset. -/
theorem C6_amended (cpu_count : ℕ) (input_file output_dir : String) (env : Env)
    (vi : VideoMetadata) (t : ℤ)
    (hp : env.probe = some vi)
    (ht : calculate_target_bitrate vi.duration = some t)
    (hr : ¬ env.mp4_run.returncode = 0) :
    (process_video cpu_count (input_file, output_dir) env).2 =
      Except.ok (some (TranscodeResult.failure (format_filename (pathStem input_file))
        (calledProcessErrorStr env.mp4_run.returncode
          (mp4Cmd input_file (max 1 (cpu_count / 2)) t
            (output_dir ++ "/mp4/" ++ format_filename (pathStem input_file) ++ ".mp4"))))) ∧
    webmCalls (process_video cpu_count (input_file, output_dir) env).1 = [] := by
  constructor <;> simp [process_video, hp, ht, hr, webmCalls]

/-- C6 amended witness: the concrete failing-MP4 environment. -/
theorem C6_amended_witness :
    (process_video 4 ("a.mp4", "out") envMp4Fail).2 =
      Except.ok (some (TranscodeResult.failure (format_filename (pathStem "a.mp4"))
        (calledProcessErrorStr envMp4Fail.mp4_run.returncode
          (mp4Cmd "a.mp4" (max 1 (4 / 2)) 1677721
            ("out" ++ "/mp4/" ++ format_filename (pathStem "a.mp4") ++ ".mp4"))))) ∧
    webmCalls (process_video 4 ("a.mp4", "out") envMp4Fail).1 = [] :=
  C6_amended 4 "a.mp4" "out" envMp4Fail
    { width := 1080, height := 1920, duration := 10 } 1677721 rfl calc_ten (by decide)

set_option maxRecDepth 100000 in
/-- C6 counterexample: with the MP4 encoder exiting 1 and stderr "boom",
the Failure message does not contain the stderr text at all (it is the
`CalledProcessError` rendering of the command and exit status), refuting
the claim that the result carries the encoder stderr diagnostic; the
WebM encoder is indeed never invoked. -/
theorem C6_counterexample :
    envMp4Fail.mp4_run.stderr = "boom" ∧
    (process_video 4 ("a.mp4", "out") envMp4Fail).2 =
      Except.ok (some (TranscodeResult.failure "a"
        (calledProcessErrorStr 1 (mp4Cmd "a.mp4" 2 1677721 "out/mp4/a.mp4")))) ∧
    strContains (calledProcessErrorStr 1 (mp4Cmd "a.mp4" 2 1677721 "out/mp4/a.mp4"))
      "boom" = false ∧
    webmCalls (process_video 4 ("a.mp4", "out") envMp4Fail).1 = [] := by
  have ha : format_filename (pathStem "a.mp4") = "a" := by decide
  have hout : ("out" ++ "/mp4/" ++ "a" ++ ".mp4" : String) = "out/mp4/a.mp4" := by decide
  refine ⟨rfl, ?_, by decide, ?_⟩
  · have h2 : (process_video 4 ("a.mp4", "out") envMp4Fail).2 =
        Except.ok (some (TranscodeResult.failure (format_filename (pathStem "a.mp4"))
          (calledProcessErrorStr envMp4Fail.mp4_run.returncode
            (mp4Cmd "a.mp4" (max 1 (4 / 2)) 1677721
              ("out" ++ "/mp4/" ++ format_filename (pathStem "a.mp4") ++ ".mp4"))))) := by
      simp [process_video, envMp4Fail, envGood, calc_ten, webmCalls]
    rw [h2, ha, hout]
    rfl
  · have h3 : webmCalls (process_video 4 ("a.mp4", "out") envMp4Fail).1 = [] := by
      simp [process_video, envMp4Fail, envGood, calc_ten, webmCalls]
    exact h3
